import Mathlib

/-!
Shallow embedding of the harmonix backend classification and priority
decision engine, together with the package and receipt operations of the
service layer that invoke it.

Pure services (translated from app/services/):
  - `ZKVerifier.verify`        (zk_verifier.py)
  - `HarmScoreCalculator.calculate` (harm_score.py)
  - `CategoryDetector.detect`  (category_detector.py)
  - `PriorityEngine.compute`   (priority_engine.py)

Router operations (translated from app/routers/packages.py, receipts.py,
seed.py) are modelled as functions on explicit row records; Python calls
that can raise are embedded as `Except PyExn`.
-/

/-- Exceptions the embedded Python fragments can raise. -/
inductive PyExn where
  | typeError
  | attributeError
deriving DecidableEq, Repr

/-- Embedding of Python `str.lower()` (the sources only use ASCII data). -/
def pyToLower (s : String) : String :=
  String.mk (s.data.map Char.toLower)

/-- Strip leading and trailing whitespace from a character list,
embedding Python `str.strip()`. -/
def stripChars (l : List Char) : List Char :=
  ((l.dropWhile Char.isWhitespace).reverse.dropWhile Char.isWhitespace).reverse

/-- Embedding of Python `str.strip()`. -/
def pyStrip (s : String) : String :=
  String.mk (stripChars s.data)

/-- The normalization `x.lower().strip()` used by zk_verifier.py and
harm_score.py. -/
def pyNormalize (s : String) : String :=
  pyStrip (pyToLower s)

namespace WhoRegistry

/-- who_registry.py: the WHO approved medical product types. -/
def WHO_APPROVED_PRODUCTS : List String :=
  ["antibiotics", "vaccines", "first_aid", "medical_kit", "surgical_supplies"]

end WhoRegistry

namespace ZKVerifier

/-- zk_verifier.py, `ZKVerifier.verify`: falsy input (None or the empty
string) gives `false`; otherwise the lowercased, stripped claim is tested
for membership in the WHO registry. -/
def verify (claimed_product_type : Option String) : Bool :=
  match claimed_product_type with
  | none => false
  | some s =>
    if s = "" then false
    else decide (pyNormalize s ∈ WhoRegistry.WHO_APPROVED_PRODUCTS)

end ZKVerifier

namespace HarmScoreCalculator

/-- harm_score.py, `HarmScoreCalculator.calculate`: falsy input (None or
the empty string) gives the baseline 10; otherwise the lowercased,
stripped disaster type is looked up in the literal score dictionary with
default 10. -/
def calculate (disaster_type : Option String) : Int :=
  match disaster_type with
  | none => 10
  | some s =>
    if s = "" then 10
    else
      let normalized := pyNormalize s
      if normalized = "earthquake" then 95
      else if normalized = "flood" then 90
      else if normalized = "cyclone" then 85
      else if normalized = "landslide" then 80
      else if normalized = "storm" then 70
      else 10

end HarmScoreCalculator

namespace CategoryDetector

/-- The guard `weight is not None and weight < 5` of rule 2 in
category_detector.py (weights are modelled as rationals). -/
def weightBelow5 : Option ℚ → Bool
  | none => false
  | some w => decide (w < 5)

/-- category_detector.py, `CategoryDetector.detect`: four ordered rules
over the structured signals; `urgency` is a parameter of the source
function but unused by its body. -/
def detect (urgency : String) (weight : Option ℚ) (fragile : Option Bool)
    (sender_type : Option String) (zk_verified_sender : Option Bool) :
    Option String :=
  if zk_verified_sender = some true ∧
      (sender_type = some "hospital" ∨ sender_type = some "ngo" ∨
        sender_type = some "govt") then
    some "medicine"
  else if fragile = some true ∧ weightBelow5 weight = true then
    some "medicine"
  else if sender_type = some "luxury" then
    some "fancy"
  else if sender_type = some "retail" ∨ sender_type = some "warehouse" then
    some "clothes"
  else
    none

end CategoryDetector

namespace PriorityEngine

/-- priority_engine.py, `PriorityEngine.compute`: None category gives
None, otherwise the chained urgency/category comparisons of the source,
with a final None fallback. -/
def compute (urgency : String) (category : Option String) : Option String :=
  match category with
  | none => none
  | some c =>
    if urgency = "critical" ∧ c = "medicine" then some "high"
    else if urgency = "critical" ∧ c = "clothes" then some "medium"
    else if urgency = "critical" ∧ c = "fancy" then some "low"
    else if urgency = "preferred" ∧ c = "medicine" then some "medium"
    else if urgency = "preferred" ∧ c = "clothes" then some "low"
    else if urgency = "preferred" ∧ c = "fancy" then some "low"
    else if urgency = "flexible" then some "low"
    else none

end PriorityEngine

/-- Dynamically typed Python values, for the call sites that pass
untyped data into the services. -/
inductive PyValue where
  | pynone
  | pybool (b : Bool)
  | pystr (s : String)
  | pynum (q : ℚ)
deriving DecidableEq, Repr

/-- Injection of an optional string into dynamic values. -/
def pyOfOptStr : Option String → PyValue
  | none => PyValue.pynone
  | some s => PyValue.pystr s

/-- Python `x is True`. -/
def pyIsTrue : PyValue → Bool
  | PyValue.pybool true => true
  | _ => false

/-- Python `x in [s1, ..., sn]` for a list of string literals: equality
between values of different runtime types is `False`. -/
def pyInStrs (v : PyValue) (l : List String) : Bool :=
  match v with
  | PyValue.pystr s => decide (s ∈ l)
  | _ => false

/-- Python `x < 5`: numbers compare numerically, booleans coerce to 0/1,
strings and None raise TypeError when compared with an integer. -/
def pyLtFive : PyValue → Except PyExn Bool
  | PyValue.pynum q => Except.ok (decide (q < 5))
  | PyValue.pybool b => Except.ok (decide ((if b then (1 : ℚ) else 0) < 5))
  | PyValue.pystr _ => Except.error PyExn.typeError
  | PyValue.pynone => Except.error PyExn.typeError

namespace CategoryDetector

/-- The body of `CategoryDetector.detect` evaluated over dynamic values,
following the short-circuit order of the source: the rule 2 comparison
`weight < 5` is only evaluated when `fragile is True` and `weight is not
None`, and can itself raise. -/
def detectBodyDyn (urgency weight fragile sender_type zk_verified_sender :
    PyValue) : Except PyExn (Option String) :=
  if pyIsTrue zk_verified_sender = true ∧
      pyInStrs sender_type ["hospital", "ngo", "govt"] = true then
    Except.ok (some "medicine")
  else
    match (if pyIsTrue fragile = true ∧ weight ≠ PyValue.pynone then
            pyLtFive weight
          else Except.ok false) with
    | Except.error e => Except.error e
    | Except.ok rule2 =>
      if rule2 = true then Except.ok (some "medicine")
      else if sender_type = PyValue.pystr "luxury" then Except.ok (some "fancy")
      else if pyInStrs sender_type ["retail", "warehouse"] = true then
        Except.ok (some "clothes")
      else Except.ok none

/-- Python call semantics for `CategoryDetector.detect`: the function
declares five required positional parameters and no defaults, so a call
supplying any other number of positional arguments raises TypeError
before the body runs. -/
def callDetect : List PyValue → Except PyExn (Option String)
  | [u, w, f, s, z] => detectBodyDyn u w f s z
  | _ => Except.error PyExn.typeError

end CategoryDetector

/-- A row of the packages table, as read back by the routers
(the columns of PackageResponse in app/schemas/packages.py). -/
structure PackageRow where
  id : String
  package_id : String
  destination : String
  status : String
  urgency : String
  description : Option String
  weight : Option ℚ
  fragile : Option Bool
  sender_type : Option String
  zk_verified_sender : Option Bool
  category : Option String
  priority_label : Option String
  last_updated : String
deriving DecidableEq, Repr

/-- An `update_data` dictionary for the packages table: a key that is
present carries the new column value, an absent key leaves the column
untouched. -/
structure PackageUpdateData where
  status : Option String := none
  urgency : Option String := none
  description : Option (Option String) := none
  weight : Option (Option ℚ) := none
  fragile : Option (Option Bool) := none
  sender_type : Option (Option String) := none
  zk_verified_sender : Option (Option Bool) := none
  category : Option (Option String) := none
  priority_label : Option (Option String) := none
  last_updated : Option String := none
deriving Repr

/-- Applying an update dictionary to a stored row patches exactly the
columns whose keys are present. -/
def applyUpdate (pkg : PackageRow) (u : PackageUpdateData) : PackageRow :=
  { id := pkg.id
    package_id := pkg.package_id
    destination := pkg.destination
    status := u.status.getD pkg.status
    urgency := u.urgency.getD pkg.urgency
    description := u.description.getD pkg.description
    weight := u.weight.getD pkg.weight
    fragile := u.fragile.getD pkg.fragile
    sender_type := u.sender_type.getD pkg.sender_type
    zk_verified_sender := u.zk_verified_sender.getD pkg.zk_verified_sender
    category := u.category.getD pkg.category
    priority_label := u.priority_label.getD pkg.priority_label
    last_updated := u.last_updated.getD pkg.last_updated }

/-- Request body of POST /packages (PackageCreate): status and urgency
are enum-validated, description is optional. -/
structure PackageCreateReq where
  package_id : String
  destination : String
  status : String
  urgency : String
  description : Option String
deriving DecidableEq, Repr

namespace PackagesRouter

/-- packages.py `create_package`: the inserted row carries the request
fields with `category` and `priority_label` both None (the signal columns
are not part of the insert and default to null). -/
def create_package_row (id : String) (req : PackageCreateReq)
    (now : String) : PackageRow :=
  { id := id
    package_id := req.package_id
    destination := req.destination
    status := req.status
    urgency := req.urgency
    description := req.description
    weight := none
    fragile := none
    sender_type := none
    zk_verified_sender := none
    category := none
    priority_label := none
    last_updated := now }

/-- Python attribute access `x.value` on a value of static type
Optional[str]: neither None nor str has an attribute `value`, so the
access raises AttributeError for every such value. -/
def optStrValueAttr : Option String → Except PyExn String :=
  fun _ => Except.error PyExn.attributeError

/-- The `update_data` dictionary of packages.py `update_package`
(only `status` and `last_updated` keys are present). -/
def status_update_data (v : String) (now : String) : PackageUpdateData :=
  { status := some v, last_updated := some now }

/-- packages.py `update_package` (PATCH /packages): building
`update_data` evaluates `request.status.value` where `request.status` has
type Optional[str], so the handler raises before any column is written. -/
def update_package (pkg : PackageRow) (req_status : Option String)
    (now : String) : Except PyExn PackageRow :=
  match optStrValueAttr req_status with
  | Except.error e => Except.error e
  | Except.ok v => Except.ok (applyUpdate pkg (status_update_data v now))

/-- Python truthiness of an optional string (`if category:`). -/
def pyTruthyStr : Option String → Bool
  | none => false
  | some s => decide (s ≠ "")

/-- The `update_data` dictionary of packages.py `process_package`
(`category`, `priority_label` and `last_updated` keys). -/
def process_update_data (detected : Option String)
    (priority_label : Option String) (now : String) : PackageUpdateData :=
  { category := some detected, priority_label := some priority_label,
    last_updated := some now }

/-- packages.py `process_package` (PATCH /packages/id/process): the
description of the fetched row is passed as the single argument of
`CategoryDetector.detect`; on success the detected category and the
computed priority label are written together. -/
def process_package (pkg : PackageRow) (now : String) :
    Except PyExn PackageRow :=
  match CategoryDetector.callDetect [pyOfOptStr pkg.description] with
  | Except.error e => Except.error e
  | Except.ok detected =>
    let priority_label :=
      if pyTruthyStr detected = true then
        PriorityEngine.compute pkg.urgency detected
      else none
    Except.ok (applyUpdate pkg (process_update_data detected priority_label now))

/-- The `update_data` dictionary of packages.py `update_package_category`
(`category`, `priority_label` and `last_updated` keys). -/
def category_update_data (c : String) (priority_label : Option String)
    (now : String) : PackageUpdateData :=
  { category := some (some c), priority_label := some priority_label,
    last_updated := some now }

/-- packages.py `update_package_category` (PATCH /packages/id/category):
the request category is an enum (its `.value` is the category string);
the priority label is recomputed from the stored urgency and the new
category, and both columns are written together. -/
def update_package_category (pkg : PackageRow) (c : String)
    (now : String) : PackageRow :=
  let priority_label := PriorityEngine.compute pkg.urgency (some c)
  applyUpdate pkg (category_update_data c priority_label now)

end PackagesRouter

namespace SeedRouter

/-- seed.py `seed_packages`, per demo package: category is detected from
the structured demo signals with `zk_verified_sender=None`, the priority
label is computed only when the category is truthy, and the inserted row
carries both. -/
def seed_package_row (id : String) (package_id destination st urg : String)
    (w : Option ℚ) (fr : Option Bool) (sTy : Option String)
    (description : Option String) (now : String) : PackageRow :=
  let category := CategoryDetector.detect urg w fr sTy none
  let priority_label :=
    if PackagesRouter.pyTruthyStr category = true then
      PriorityEngine.compute urg category
    else none
  { id := id
    package_id := package_id
    destination := destination
    status := st
    urgency := urg
    description := description
    weight := w
    fragile := fr
    sender_type := sTy
    zk_verified_sender := none
    category := category
    priority_label := priority_label
    last_updated := now }

end SeedRouter

/-- Request body of POST /receipts (ReceiptCreate in
app/schemas/receipts.py). -/
structure ReceiptCreateReq where
  receipt_id : String
  package_id : String
  proof_summary : String
  status : String
  disaster_type : Option String
deriving DecidableEq, Repr

/-- A row of the receipts table: the columns of the insert dictionary of
receipts.py `create_receipt`, plus a `harm_score` column that the insert
never sets. -/
structure ReceiptRow where
  receipt_id : String
  package_id : String
  proof_summary : String
  status : String
  timestamp : String
  harm_score : Option Int
deriving DecidableEq, Repr

/-- A ReceiptResponse as returned by the receipts router. -/
structure ReceiptOut where
  receipt_id : String
  package_id : String
  proof_summary : String
  status : String
  timestamp : String
  harm_score : Option Int
deriving DecidableEq, Repr

namespace ReceiptsRouter

/-- receipts.py `create_receipt`, insert step: the `receipt_data`
dictionary holds receipt_id, package_id, proof_summary, status and
timestamp only — no harm_score key, so the stored column stays null. -/
def create_receipt_insert (req : ReceiptCreateReq) (now : String) :
    ReceiptRow :=
  { receipt_id := req.receipt_id
    package_id := req.package_id
    proof_summary := req.proof_summary
    status := req.status
    timestamp := now
    harm_score := none }

/-- receipts.py `create_receipt`, response step: the harm score is
computed once from the request disaster type and added to the stored
row before it is returned. -/
def create_receipt (req : ReceiptCreateReq) (now : String) :
    ReceiptRow × ReceiptOut :=
  let harm_score := HarmScoreCalculator.calculate req.disaster_type
  let row := create_receipt_insert req now
  (row,
    { receipt_id := row.receipt_id
      package_id := row.package_id
      proof_summary := row.proof_summary
      status := row.status
      timestamp := row.timestamp
      harm_score := some harm_score })

/-- receipts.py `list_receipts`: each stored row is returned as
ReceiptResponse(**rcpt) — fields are copied, nothing is recomputed, and
a missing harm_score column surfaces as null. -/
def list_receipt_out (row : ReceiptRow) : ReceiptOut :=
  { receipt_id := row.receipt_id
    package_id := row.package_id
    proof_summary := row.proof_summary
    status := row.status
    timestamp := row.timestamp
    harm_score := row.harm_score }

end ReceiptsRouter

/-- The write operations the packages router can run against one stored
package row after it exists. -/
inductive PkgOp where
  | updateStatus (req_status : Option String) (now : String)
  | processPackage (now : String)
  | setCategory (c : String) (now : String)
deriving DecidableEq, Repr

/-- Effect of one router operation on a stored package row: an operation
whose handler raises leaves the row as it was (the exception is caught
and translated to an error response before any write). -/
def applyOp (op : PkgOp) (pkg : PackageRow) : PackageRow :=
  match op with
  | PkgOp.updateStatus st now =>
    match PackagesRouter.update_package pkg st now with
    | Except.ok p => p
    | Except.error _ => pkg
  | PkgOp.processPackage now =>
    match PackagesRouter.process_package pkg now with
    | Except.ok p => p
    | Except.error _ => pkg
  | PkgOp.setCategory c now => PackagesRouter.update_package_category pkg c now

/-- Package rows reachable in the system: rows inserted by
`create_package` or by the seed endpoint, followed by any sequence of
router write operations. -/
inductive ReachablePkg : PackageRow → Prop where
  | created (id : String) (req : PackageCreateReq) (now : String) :
      ReachablePkg (PackagesRouter.create_package_row id req now)
  | seeded (id package_id destination st urg : String) (w : Option ℚ)
      (fr : Option Bool) (sTy : Option String) (description : Option String)
      (now : String) :
      ReachablePkg (SeedRouter.seed_package_row id package_id destination
        st urg w fr sTy description now)
  | step (pkg : PackageRow) (op : PkgOp) :
      ReachablePkg pkg → ReachablePkg (applyOp op pkg)

/-- The spec invariant on package rows: a non-null priority label implies
a non-null category. -/
def PkgInv (pkg : PackageRow) : Prop :=
  pkg.priority_label ≠ none → pkg.category ≠ none

/-- Whether an update dictionary writes the category column. -/
def writesCategory (u : PackageUpdateData) : Bool :=
  u.category.isSome

/-- Whether an update dictionary writes the priority_label column. -/
def writesPriority (u : PackageUpdateData) : Bool :=
  u.priority_label.isSome

namespace ClassifierSpec

/-- The structured signals of the category classifier, as the spec lists
them. -/
structure Signals where
  weight : Option ℚ
  fragile : Option Bool
  senderType : Option String
  zkVerified : Option Bool
deriving DecidableEq, Repr

/-- Evaluate an ordered decision list: the first rule whose guard holds
wins, and no rule matching yields none. -/
def firstMatch {α β : Type} : List ((α → Bool) × β) → α → Option β
  | [], _ => none
  | (p, v) :: rest, a => if p a = true then some v else firstMatch rest a

/-- Spec rule 1: zkVerified is true and senderType is one of
hospital/ngo/govt. -/
def rule1 (s : Signals) : Bool :=
  s.zkVerified == some true &&
    (s.senderType == some "hospital" || s.senderType == some "ngo" ||
      s.senderType == some "govt")

/-- Spec rule 2: fragile is true, weight is present and weight < 5. -/
def rule2 (s : Signals) : Bool :=
  s.fragile == some true &&
    match s.weight with
    | some w => decide (w < 5)
    | none => false

/-- Spec rule 3: senderType is luxury. -/
def rule3 (s : Signals) : Bool :=
  s.senderType == some "luxury"

/-- Spec rule 4: senderType is retail or warehouse. -/
def rule4 (s : Signals) : Bool :=
  s.senderType == some "retail" || s.senderType == some "warehouse"

/-- The category classifier as the spec words it: the four rules as an
ordered decision list, first match wins, otherwise null. -/
def classify (s : Signals) : Option String :=
  firstMatch
    [(rule1, "medicine"), (rule2, "medicine"), (rule3, "fancy"),
      (rule4, "clothes")] s

end ClassifierSpec

/-- Claim C1: the category classifier, for every combination of optional
weight, fragile, senderType and zkVerified inputs (and any urgency, which
it ignores), returns exactly what the ordered four-rule decision list of
the spec returns — rule 1 (verified institutional sender) gives medicine,
then rule 2 (fragile and weight below 5) gives medicine, then rule 3
(luxury) gives fancy, then rule 4 (retail or warehouse) gives clothes,
and otherwise null; missing fields fail every predicate that mentions
them, and the function is total, so no input raises. -/
theorem claim_C1_detect_is_spec_decision_list :
    ∀ (u : String) (w : Option ℚ) (f : Option Bool) (sT : Option String)
      (z : Option Bool),
      CategoryDetector.detect u w f sT z =
        ClassifierSpec.classify ⟨w, f, sT, z⟩ := by
  intro u w f sT z
  cases w <;>
    simp [CategoryDetector.detect, CategoryDetector.weightBelow5,
      ClassifierSpec.classify, ClassifierSpec.firstMatch,
      ClassifierSpec.rule1, ClassifierSpec.rule2, ClassifierSpec.rule3,
      ClassifierSpec.rule4, Bool.and_eq_true, Bool.or_eq_true, beq_iff_eq,
      decide_eq_true_eq, or_assoc]

/-- Claim C2: the priority resolver returns null for a null category
whatever the urgency string is, and on the declared enums it realizes
exactly the fixed three-by-three matrix, hence is total and never null
there. -/
theorem claim_C2_compute_matrix :
    (∀ u : String, PriorityEngine.compute u none = none) ∧
    PriorityEngine.compute "critical" (some "medicine") = some "high" ∧
    PriorityEngine.compute "critical" (some "clothes") = some "medium" ∧
    PriorityEngine.compute "critical" (some "fancy") = some "low" ∧
    PriorityEngine.compute "preferred" (some "medicine") = some "medium" ∧
    PriorityEngine.compute "preferred" (some "clothes") = some "low" ∧
    PriorityEngine.compute "preferred" (some "fancy") = some "low" ∧
    PriorityEngine.compute "flexible" (some "medicine") = some "low" ∧
    PriorityEngine.compute "flexible" (some "clothes") = some "low" ∧
    PriorityEngine.compute "flexible" (some "fancy") = some "low" := by
  refine ⟨fun u => rfl, ?_⟩
  decide

/-- Lowercasing preserves whitespace characters. -/
theorem toLower_isWhitespace (c : Char) (h : c.isWhitespace = true) :
    (Char.toLower c).isWhitespace = true := by
  simp only [Char.isWhitespace, Bool.or_eq_true, decide_eq_true_eq] at h
  rcases h with ((h | h) | h) | h <;> subst h <;> decide

/-- Stripping a list of whitespace characters yields the empty list. -/
theorem stripChars_of_all_whitespace (l : List Char)
    (h : ∀ c ∈ l, c.isWhitespace = true) : stripChars l = [] := by
  unfold stripChars
  rw [List.dropWhile_eq_nil_iff.mpr h]
  simp

/-- Normalizing a string of whitespace characters yields the empty
string. -/
theorem pyNormalize_of_all_whitespace (s : String)
    (h : ∀ c ∈ s.data, c.isWhitespace = true) : pyNormalize s = "" := by
  unfold pyNormalize pyStrip pyToLower
  rw [show (String.mk (s.data.map Char.toLower)).data
        = s.data.map Char.toLower from rfl]
  rw [stripChars_of_all_whitespace]
  · intro c hc
    rcases List.mem_map.mp hc with ⟨a, ha, rfl⟩
    exact toLower_isWhitespace a (h a ha)

/-- Normalizing the empty string yields the empty string. -/
theorem pyNormalize_empty : pyNormalize "" = "" := rfl

/-- The harm score calculation always lands in [0, 100]. -/
theorem calculate_bounds (dt : Option String) :
    0 ≤ HarmScoreCalculator.calculate dt ∧
      HarmScoreCalculator.calculate dt ≤ 100 := by
  cases dt with
  | none => exact ⟨by norm_num [HarmScoreCalculator.calculate],
      by norm_num [HarmScoreCalculator.calculate]⟩
  | some s =>
    simp only [HarmScoreCalculator.calculate]
    split_ifs <;> omega

/-- Claim C7: the severity lookup returns 95/90/85/80/70 for
earthquake/flood/cyclone/landslide/storm matched after trim and
lowercase normalization, returns the baseline 10 for absent, empty or
unrecognized input without raising, and its result always lies in
[0, 100]. -/
theorem claim_C7_severity_lookup :
    (∀ s : String, pyNormalize s = "earthquake" →
        HarmScoreCalculator.calculate (some s) = 95) ∧
    (∀ s : String, pyNormalize s = "flood" →
        HarmScoreCalculator.calculate (some s) = 90) ∧
    (∀ s : String, pyNormalize s = "cyclone" →
        HarmScoreCalculator.calculate (some s) = 85) ∧
    (∀ s : String, pyNormalize s = "landslide" →
        HarmScoreCalculator.calculate (some s) = 80) ∧
    (∀ s : String, pyNormalize s = "storm" →
        HarmScoreCalculator.calculate (some s) = 70) ∧
    HarmScoreCalculator.calculate none = 10 ∧
    (∀ s : String,
        pyNormalize s ∉
          ["earthquake", "flood", "cyclone", "landslide", "storm"] →
        HarmScoreCalculator.calculate (some s) = 10) ∧
    (∀ dt : Option String, 0 ≤ HarmScoreCalculator.calculate dt ∧
        HarmScoreCalculator.calculate dt ≤ 100) := by
  have base : ∀ (s : String) (v : String), pyNormalize s = v →
      s = "" → v = "" := by
    intro s v h hs
    rw [hs] at h
    exact h.symm.trans pyNormalize_empty
  refine ⟨?_, ?_, ?_, ?_, ?_, rfl, ?_, ?_⟩
  · intro s h
    by_cases hs : s = ""
    · exact absurd (base s _ h hs) (by decide)
    · simp [HarmScoreCalculator.calculate, hs, h]
  · intro s h
    by_cases hs : s = ""
    · exact absurd (base s _ h hs) (by decide)
    · simp [HarmScoreCalculator.calculate, hs, h]
  · intro s h
    by_cases hs : s = ""
    · exact absurd (base s _ h hs) (by decide)
    · simp [HarmScoreCalculator.calculate, hs, h]
  · intro s h
    by_cases hs : s = ""
    · exact absurd (base s _ h hs) (by decide)
    · simp [HarmScoreCalculator.calculate, hs, h]
  · intro s h
    by_cases hs : s = ""
    · exact absurd (base s _ h hs) (by decide)
    · simp [HarmScoreCalculator.calculate, hs, h]
  · intro s h
    by_cases hs : s = ""
    · subst hs; rfl
    · simp only [List.mem_cons, List.not_mem_nil, or_false, not_or] at h
      obtain ⟨h1, h2, h3, h4, h5⟩ := h
      simp [HarmScoreCalculator.calculate, hs, h1, h2, h3, h4, h5]
  · exact calculate_bounds

/-- Witness for claim C7: the spec examples, obtained from the theorem
at concrete inputs. -/
theorem claim_C7_severity_lookup_witness :
    HarmScoreCalculator.calculate (some "FLOOD") = 90 ∧
    HarmScoreCalculator.calculate (some " earthquake ") = 95 ∧
    HarmScoreCalculator.calculate (some "tsunami") = 10 ∧
    HarmScoreCalculator.calculate none = 10 :=
  ⟨claim_C7_severity_lookup.2.1 "FLOOD" (by decide),
    claim_C7_severity_lookup.1 " earthquake " (by decide),
    claim_C7_severity_lookup.2.2.2.2.2.2.1 "tsunami" (by decide),
    claim_C7_severity_lookup.2.2.2.2.2.1⟩

/-- Claim C8: the trust verifier returns false for absent, empty or
whitespace-only input, and otherwise returns true exactly when the
trimmed lowercased input is in the static trust registry; in particular
antibiotics verifies and unicorn_dust does not. -/
theorem claim_C8_verify_registry :
    ZKVerifier.verify none = false ∧
    (∀ s : String, (∀ c ∈ s.data, c.isWhitespace = true) →
        ZKVerifier.verify (some s) = false) ∧
    (∀ s : String, ZKVerifier.verify (some s) = true ↔
        pyNormalize s ∈ WhoRegistry.WHO_APPROVED_PRODUCTS) ∧
    ZKVerifier.verify (some "antibiotics") = true ∧
    ZKVerifier.verify (some "unicorn_dust") = false := by
  refine ⟨rfl, ?_, ?_, by decide, by decide⟩
  · intro s h
    by_cases hs : s = ""
    · subst hs; rfl
    · have hn := pyNormalize_of_all_whitespace s h
      simp [ZKVerifier.verify, hs, hn, WhoRegistry.WHO_APPROVED_PRODUCTS]
  · intro s
    by_cases hs : s = ""
    · subst hs; decide
    · simp [ZKVerifier.verify, hs]

/-- Witness for claim C8: a whitespace-only claim fails verification and
a registry member with surrounding noise verifies, obtained from the
theorem at concrete inputs. -/
theorem claim_C8_verify_registry_witness :
    ZKVerifier.verify (some "   ") = false ∧
    ZKVerifier.verify (some " Antibiotics ") = true :=
  ⟨claim_C8_verify_registry.2.1 "   " (by decide),
    (claim_C8_verify_registry.2.2.1 " Antibiotics ").mpr (by decide)⟩

/-- Claim C9: the category classifier ignores its urgency argument — two
calls with equal weight, fragile, senderType and zkVerified inputs return
the same result for any two urgency values. -/
theorem claim_C9_detect_ignores_urgency :
    ∀ (u₁ u₂ : String) (w : Option ℚ) (f : Option Bool)
      (sT : Option String) (z : Option Bool),
      CategoryDetector.detect u₁ w f sT z =
        CategoryDetector.detect u₂ w f sT z :=
  fun _ _ _ _ _ _ => rfl

/-- Claim C3 fails on the code: for every stored package the
classification endpoint raises TypeError, because process_package passes
the single description value to CategoryDetector.detect, whose five
positional parameters are all required — so the handler never reaches a
Trust Verifier call (packages.py has no ZKVerifier call at all) and no
zkVerifiedSender computation happens. -/
theorem claim_C3_process_always_raises :
    ∀ (pkg : PackageRow) (now : String),
      PackagesRouter.process_package pkg now =
        Except.error PyExn.typeError :=
  fun _ _ => rfl

/-- Claim C4, first half confirmed and second half failed by the code:
package creation stores null category and priority_label, but every
subsequent classification request raises TypeError (the detect call has
arity 1 instead of 5), so the two fields are never overwritten. -/
theorem claim_C4_create_nulls_process_raises :
    (∀ (id : String) (req : PackageCreateReq) (now : String),
        (PackagesRouter.create_package_row id req now).category = none ∧
          (PackagesRouter.create_package_row id req now).priority_label
            = none) ∧
    (∀ (pkg : PackageRow) (now : String),
        PackagesRouter.process_package pkg now =
          Except.error PyExn.typeError) :=
  ⟨fun _ _ _ => ⟨rfl, rfl⟩, fun _ _ => rfl⟩

/-- Truthiness of an optional string implies it is not None. -/
theorem pyTruthyStr_ne_none (o : Option String)
    (h : PackagesRouter.pyTruthyStr o = true) : o ≠ none := by
  cases o with
  | none => simp [PackagesRouter.pyTruthyStr] at h
  | some s => exact fun hc => Option.noConfusion hc

/-- Claim C5: in every reachable package state a non-null priority label
implies a non-null category, and each update dictionary of the packages
router writes the category and priority_label columns together or not at
all — the status update writes neither, while automatic classification
and the manual category override write both in the same update. -/
theorem claim_C5_invariant_joint_writes :
    (∀ pkg : PackageRow, ReachablePkg pkg → PkgInv pkg) ∧
    (∀ v now : String,
        writesCategory (PackagesRouter.status_update_data v now) = false ∧
          writesPriority (PackagesRouter.status_update_data v now) = false) ∧
    (∀ (d p : Option String) (now : String),
        writesCategory (PackagesRouter.process_update_data d p now) = true ∧
          writesPriority (PackagesRouter.process_update_data d p now)
            = true) ∧
    (∀ (c : String) (p : Option String) (now : String),
        writesCategory (PackagesRouter.category_update_data c p now) = true ∧
          writesPriority (PackagesRouter.category_update_data c p now)
            = true) := by
  refine ⟨?_, fun v now => ⟨rfl, rfl⟩, fun d p now => ⟨rfl, rfl⟩,
    fun c p now => ⟨rfl, rfl⟩⟩
  intro pkg hreach
  induction hreach with
  | created id req now => exact fun h => absurd rfl h
  | seeded id package_id destination st urg w fr sTy description now =>
    intro h
    by_cases ht : PackagesRouter.pyTruthyStr
        (CategoryDetector.detect urg w fr sTy none) = true
    · exact pyTruthyStr_ne_none _ ht
    · exact absurd (by simp [SeedRouter.seed_package_row, ht]) h
  | step pkg op hr ih =>
    cases op with
    | updateStatus st now => exact ih
    | processPackage now => exact ih
    | setCategory c now =>
      intro _
      simp [applyOp, PackagesRouter.update_package_category, applyUpdate,
        PackagesRouter.category_update_data]

/-- Witness for claim C5: the invariant instantiated at a concrete
reachable row — a freshly created package whose category was then
manually set to medicine. -/
theorem claim_C5_invariant_joint_writes_witness :
    PkgInv (applyOp (PkgOp.setCategory "medicine" "t1")
      (PackagesRouter.create_package_row "u1"
        ⟨"PKG-1", "Delhi", "in_transit", "critical", none⟩ "t0")) :=
  claim_C5_invariant_joint_writes.1 _
    (ReachablePkg.step _ _ (ReachablePkg.created "u1"
      ⟨"PKG-1", "Delhi", "in_transit", "critical", none⟩ "t0"))

/-- Counterexample for claim C6: for a receipt created with disaster
type flood, the derived score 90 appears only on the creation response;
the row the code persists carries a null harm_score, so the stored
receipt, read back through the list endpoint, does not hold the derived
score. -/
theorem claim_C6_counterexample :
    (ReceiptsRouter.create_receipt
        ⟨"R1", "P1", "delivery proof", "verified", some "flood"⟩
        "t0").2.harm_score = some 90 ∧
    (ReceiptsRouter.create_receipt
        ⟨"R1", "P1", "delivery proof", "verified", some "flood"⟩
        "t0").1.harm_score = none ∧
    (ReceiptsRouter.list_receipt_out
        (ReceiptsRouter.create_receipt
          ⟨"R1", "P1", "delivery proof", "verified", some "flood"⟩
          "t0").1).harm_score ≠ some 90 := by
  refine ⟨?_, rfl, ?_⟩ <;> decide

/-- Claim C6 as amended: the harm score is derived exactly once, at
receipt creation, from the optional disaster type, lies in [0, 100] and
is returned on the creation response; it is never recomputed afterwards
— listing copies the stored column unchanged — but it is not persisted:
the inserted receipt row always carries a null harm_score. -/
theorem claim_C6_amended_harm_score_once :
    ∀ (req : ReceiptCreateReq) (now : String),
      (ReceiptsRouter.create_receipt req now).2.harm_score
          = some (HarmScoreCalculator.calculate req.disaster_type) ∧
      0 ≤ HarmScoreCalculator.calculate req.disaster_type ∧
      HarmScoreCalculator.calculate req.disaster_type ≤ 100 ∧
      (ReceiptsRouter.create_receipt req now).1.harm_score = none ∧
      (∀ row : ReceiptRow,
          (ReceiptsRouter.list_receipt_out row).harm_score
            = row.harm_score) := by
  intro req now
  exact ⟨rfl, (calculate_bounds req.disaster_type).1,
    (calculate_bounds req.disaster_type).2, rfl, fun _ => rfl⟩

/-- Claim C10 fails on the code: every status update raises
AttributeError, because update_package evaluates request.status.value on
a value of static type Optional[str]; the handler therefore answers 500
and writes nothing. The update dictionary it would have applied patches
only the status and last_updated columns, leaving category,
priority_label, urgency, weight, fragile, sender_type and
zk_verified_sender (and the identifying fields) unchanged. -/
theorem claim_C10_status_update_frame :
    (∀ (pkg : PackageRow) (st : Option String) (now : String),
        PackagesRouter.update_package pkg st now =
          Except.error PyExn.attributeError) ∧
    (∀ (pkg : PackageRow) (v now : String),
        (applyUpdate pkg (PackagesRouter.status_update_data v now)).status
            = v ∧
        (applyUpdate pkg
            (PackagesRouter.status_update_data v now)).last_updated = now ∧
        (applyUpdate pkg (PackagesRouter.status_update_data v now)).category
            = pkg.category ∧
        (applyUpdate pkg
            (PackagesRouter.status_update_data v now)).priority_label
            = pkg.priority_label ∧
        (applyUpdate pkg (PackagesRouter.status_update_data v now)).urgency
            = pkg.urgency ∧
        (applyUpdate pkg (PackagesRouter.status_update_data v now)).weight
            = pkg.weight ∧
        (applyUpdate pkg (PackagesRouter.status_update_data v now)).fragile
            = pkg.fragile ∧
        (applyUpdate pkg
            (PackagesRouter.status_update_data v now)).sender_type
            = pkg.sender_type ∧
        (applyUpdate pkg
            (PackagesRouter.status_update_data v now)).zk_verified_sender
            = pkg.zk_verified_sender ∧
        (applyUpdate pkg
            (PackagesRouter.status_update_data v now)).description
            = pkg.description ∧
        (applyUpdate pkg (PackagesRouter.status_update_data v now)).id
            = pkg.id ∧
        (applyUpdate pkg
            (PackagesRouter.status_update_data v now)).package_id
            = pkg.package_id ∧
        (applyUpdate pkg
            (PackagesRouter.status_update_data v now)).destination
            = pkg.destination) :=
  ⟨fun _ _ _ => rfl,
    fun _ _ _ => ⟨rfl, rfl, rfl, rfl, rfl, rfl, rfl, rfl, rfl, rfl, rfl,
      rfl, rfl⟩⟩
